import Mathlib

/-!
# Yoga app backend: request handlers over a document store

A shallow embedding of the controllers `controllers/stretches.js`,
`controllers/week.js` and `controllers/userapis/customPlan.js`.

* JavaScript scalars that can arrive in a parsed request body are `JVal`.
* A handler is a computation `Eff Response`: it reads and writes a `World`
  (the collections, the files on disk, the log of collaborator calls) and
  either sends a response (`Except.ok`) or lets an exception escape
  (`Except.error`, the rejected promise of an `async` handler).
* Collaborators that are not part of the three controllers (the identifier
  check of the store driver, the session check, injected store and file
  system failures, `__dirname`) are fields of `Env`.
-/

namespace Yoga

/-! ## JavaScript values -/

/-- A JSON scalar as found in `req.body`; `undefined` is an absent field. -/
inductive JVal where
  | undefined
  | null
  | bool (b : Bool)
  | num (n : Int)
  | str (s : String)
  deriving DecidableEq

/-- JavaScript truthiness (`if (x)`, `!x`, `x ? a : b`, `x && y`). -/
def JVal.truthy : JVal → Bool
  | .undefined => false
  | .null => false
  | .bool b => b
  | .num n => n != 0
  | .str s => s != ""

/-- The loose comparison `x == ''` of JavaScript: the empty string converts to
the number 0, booleans convert to 0 or 1, and `null`/`undefined` are loosely
equal only to each other. -/
def JVal.looseEqEmpty : JVal → Bool
  | .undefined => false
  | .null => false
  | .bool b => !b
  | .num n => n == 0
  | .str s => s == ""

/-- Thrown JavaScript values. -/
inductive JsError where
  | referenceError (ident : String)
  | typeError (what : String)
  | error (message : String)
  | storeError (call : Nat)
  | fsError (code : String)
  deriving DecidableEq

deriving instance DecidableEq for Except

/-- The `code` property of a thrown value (`fileError.code`). -/
def JsError.code : JsError → Option String
  | .fsError c => some c
  | _ => none

/-! ## Documents -/

/-- Modelled from the spec: the schema `../models/stretches` is not among the
sources; a stretch has an identifier, a name (field `stretches`), an optional
description, the flag `isActive`, an image path or the empty string, the field
`isPro` written by `changeStretchesStatus`, and a creation time. -/
structure Stretch where
  _id : String
  stretches : JVal
  description : JVal
  isActive : JVal
  image : String
  isPro : JVal
  createdAt : Nat
  deriving DecidableEq

/-- Modelled from the spec: the schema `../models/week` is not among the
sources; a week has an identifier, the identifier of its challenge, a name and
a creation time. -/
structure Week where
  _id : String
  challenges_Id : JVal
  weekName : JVal
  createdAt : Nat
  deriving DecidableEq

/-- Modelled from the spec: the challenges collection is not among the
sources; of a challenge only what `populate` selects is kept. -/
structure Challenge where
  _id : String
  challengesName : JVal
  deriving DecidableEq

/-- A week whose `challenges_Id` has been populated with `_id challengesName`
(`none` when the referenced challenge does not exist). -/
structure PopulatedWeek where
  _id : String
  challenges_Id : Option Challenge
  weekName : JVal
  createdAt : Nat
  deriving DecidableEq

/-- Modelled from the spec: the schema `../../models/customplan` is not among
the sources; a plan has an identifier, its owner, a creation time and further
fields that the handler only passes on. -/
structure CustomPlan where
  _id : String
  user_id : JVal
  createdAt : Nat
  rest : List (String × JVal)
  deriving DecidableEq

/-- Modelled from the spec: the schema `../../models/customplanexercise` is
not among the sources; an exercise row refers to its plan. -/
structure CustomPlanExercise where
  _id : String
  custom_plan_id : String
  deriving DecidableEq

/-- An entry of the `customplan` list: the fields of a plan and `totalexercise`. -/
structure PlanWithTotal where
  plan : CustomPlan
  totalexercise : Nat
  deriving DecidableEq

/-! ## Requests and responses -/

/-- The parsed body of a request: every field any of the handlers reads. -/
structure ReqBody where
  stretchesName : JVal := .undefined
  description : JVal := .undefined
  isActive : JVal := .undefined
  weekName : JVal := .undefined
  challenges_id : JVal := .undefined
  id : JVal := .undefined
  status : JVal := .undefined
  user_id : JVal := .undefined
  session : JVal := .undefined
  device_id : JVal := .undefined
  deriving DecidableEq

/-- A request: the route parameter `:id`, the body and the uploaded file path. -/
structure Req where
  paramsId : String := ""
  body : ReqBody := {}
  file : Option String := none
  deriving DecidableEq

/-- The JSON bodies the handlers send. -/
inductive Body where
  | message (message : String)
  | stretchess (message : Option String) (stretchess : List Stretch)
  | stretchDoc (doc : Stretch)
  | deletedStretches (message : String) (deletedCount : Nat)
  | weeks (message : Option String) (weeks : List Week)
  | weeksPopulated (weeks : List PopulatedWeek)
  | weekDoc (doc : Week)
  | deletedWeek (message : String) (deletedCount : Nat)
  | data (success : Nat) (customplan : List PlanWithTotal) (error : String)
  deriving DecidableEq

/-- A sent response; `res.json(x)` without `res.status` has status 200. -/
structure Response where
  status : Nat
  body : Body
  deriving DecidableEq

/-! ## The world and the effect monad -/

/-- A call to a collaborator, in the order issued. -/
inductive Call where
  | stretchesFind
  | stretchesSave
  | stretchesFindByIdAndUpdate (id : String)
  | stretchesFindOne (id : String)
  | stretchesDeleteOne (id : String)
  | stretchesFindOneAndUpdate (id : String)
  | weekSave
  | weekFind
  | weekFindByChallenge (id : String)
  | weekFindByIdAndUpdate (id : String)
  | weekDeleteOne (id : String)
  | customPlanFind (user : JVal)
  | customPlanExerciseFind (plan : String)
  | checkUserLogin (user session device : JVal)
  | fsAccess (file : List Char)
  | fsUnlink (file : List Char)
  deriving DecidableEq

/-- The state outside a handler invocation. -/
structure World where
  stretches : List Stretch := []
  weeks : List Week := []
  challenges : List Challenge := []
  customPlans : List CustomPlan := []
  customPlanExercises : List CustomPlanExercise := []
  files : List (List Char) := []
  clock : Nat := 0
  log : List Call := []
  deriving DecidableEq

/-- What the controllers take from outside their own source. -/
structure Env where
  /-- The driver check `mongoose.Types.ObjectId.isValid`. -/
  isValid : JVal → Bool
  /-- The session check of `./user`: its answer, or the value it throws. -/
  checkUserLogin : JVal → JVal → JVal → Except JsError Bool
  /-- Whether the store call issued when `n` calls are logged throws. -/
  storeFails : Nat → Bool
  /-- An input/output failure (other than absence) the file system reports. -/
  fsFails : List Char → Option String
  /-- The identifier the store gives to the document created at a clock value. -/
  newId : Nat → String
  /-- The value of `__dirname`: the absolute path of the controllers directory. -/
  dirname : List Char

/-- A computation that may change the world and may throw. -/
def Eff (α : Type) : Type := World → Except JsError α × World

/-- Sequencing: a throw skips the rest, the world changes made so far stay. -/
def Eff.bind {α β : Type} (x : Eff α) (f : α → Eff β) : Eff β := fun w =>
  match x w with
  | (.ok a, w1) => f a w1
  | (.error e, w1) => (.error e, w1)

instance : Monad Eff where
  pure a := fun w => (.ok a, w)
  bind := Eff.bind

/-- The statement `throw e`. -/
def Eff.throw {α : Type} (e : JsError) : Eff α := fun w => (.error e, w)

/-- The statement `try x catch (e) h e`. -/
def Eff.tryCatch {α : Type} (x : Eff α) (h : JsError → Eff α) : Eff α := fun w =>
  match x w with
  | (.ok a, w1) => (.ok a, w1)
  | (.error e, w1) => h e w1

instance : MonadExcept JsError Eff where
  throw := Eff.throw
  tryCatch := Eff.tryCatch

/-- Record a call in the log. -/
def logCall (c : Call) : Eff Unit := fun w => (.ok (), { w with log := w.log ++ [c] })

/-- Issue a store call: it is logged, and it throws when the environment says
that this call fails. -/
def storeCall (env : Env) (c : Call) : Eff Unit := fun w =>
  if env.storeFails w.log.length then
    (.error (.storeError w.log.length), { w with log := w.log ++ [c] })
  else
    (.ok (), { w with log := w.log ++ [c] })

/-- Read the world. -/
def getWorld : Eff World := fun w => (.ok w, w)

/-- Change the world. -/
def modifyWorld (f : World → World) : Eff Unit := fun w => (.ok (), f w)

/-! ## The store: the model calls the handlers make -/

/-- Replace the first element satisfying `p` by its image under `f`. -/
def updateFirst {α : Type} (p : α → Bool) (f : α → α) : List α → List α
  | [] => []
  | x :: xs => if p x then f x :: xs else x :: updateFirst p f xs

/-- Remove the first element satisfying `p`. -/
def eraseFirst {α : Type} (p : α → Bool) : List α → List α
  | [] => []
  | x :: xs => if p x then xs else x :: eraseFirst p xs

/-- An update leaves a field alone when the new value is `undefined`. -/
def setIfDefined (new old : JVal) : JVal :=
  if new = .undefined then old else new

/-- Modelled from the spec: `listAll` of the stretches model, which is not
among the sources; the query `find().sort(createdAt: -1)`, newest first. -/
def stretchesFind (env : Env) : Eff (List Stretch) := do
  storeCall env .stretchesFind
  let w ← getWorld
  pure (w.stretches.insertionSort (fun a b => b.createdAt ≤ a.createdAt))

/-- Modelled from the spec: `create(fields)` of the stretches model inserts one
record; the call `new Model(fields).save()`. -/
def stretchesSave (env : Env) (stretches description isActive : JVal) (image : String) :
    Eff Unit := do
  storeCall env .stretchesSave
  modifyWorld fun w =>
    { w with
      stretches := w.stretches ++
        [{ _id := env.newId w.clock, stretches := stretches, description := description,
           isActive := isActive, image := image, isPro := .undefined,
           createdAt := w.clock }]
      clock := w.clock + 1 }

/-- Modelled from the spec: `updateById(id, fields)` of the stretches model
returns the record after the update or nothing when no record has this
identifier; the call `findByIdAndUpdate(id, fields, new: true)`. -/
def stretchesFindByIdAndUpdate (env : Env) (id : String)
    (stretches description isActive : JVal) : Eff (Option Stretch) := do
  storeCall env (.stretchesFindByIdAndUpdate id)
  let w ← getWorld
  match w.stretches.find? (fun d => d._id == id) with
  | none => pure none
  | some d =>
    let d1 : Stretch :=
      { d with
        stretches := setIfDefined stretches d.stretches
        description := setIfDefined description d.description
        isActive := setIfDefined isActive d.isActive }
    modifyWorld fun w =>
      { w with stretches := updateFirst (fun d => d._id == id) (fun _ => d1) w.stretches }
    pure (some d1)

/-- Modelled from the spec: the lookup `findOne(_id: id)` on the stretches
model. -/
def stretchesFindOne (env : Env) (id : String) : Eff (Option Stretch) := do
  storeCall env (.stretchesFindOne id)
  let w ← getWorld
  pure (w.stretches.find? (fun d => d._id == id))

/-- Modelled from the spec: `deleteById(id)` of the stretches model returns the
count of removed records, 0 or 1; the call `deleteOne(_id: id)`. -/
def stretchesDeleteOne (env : Env) (id : String) : Eff Nat := do
  storeCall env (.stretchesDeleteOne id)
  let w ← getWorld
  if w.stretches.any (fun d => d._id == id) then
    modifyWorld fun w =>
      { w with stretches := eraseFirst (fun d => d._id == id) w.stretches }
    pure 1
  else
    pure 0

/-- Modelled from the spec: the call `findOneAndUpdate(_id: id, $set isPro,
returnDocument: after)` on the stretches model. -/
def stretchesFindOneAndUpdate (env : Env) (id : String) (isPro : JVal) :
    Eff (Option Stretch) := do
  storeCall env (.stretchesFindOneAndUpdate id)
  let w ← getWorld
  match w.stretches.find? (fun d => d._id == id) with
  | none => pure none
  | some d =>
    let d1 : Stretch := { d with isPro := setIfDefined isPro d.isPro }
    modifyWorld fun w =>
      { w with stretches := updateFirst (fun d => d._id == id) (fun _ => d1) w.stretches }
    pure (some d1)

/-! ## Paths and files (`path.join`, `path.normalize`, `fs.access`, `fs.unlink`) -/

/-- Split a path at every `/`. -/
def splitSlash : List Char → List (List Char)
  | [] => [[]]
  | c :: cs =>
    if c = '/' then [] :: splitSlash cs
    else
      match splitSlash cs with
      | [] => [[c]]
      | s :: ss => (c :: s) :: ss

/-- Resolve `.` and `..` segments; `acc` holds the kept segments, last first.
A `..` removes the last kept segment; with nothing to remove it is kept only
when the path is relative (`allowAboveRoot`). -/
def normalizeSegments (allowAboveRoot : Bool) :
    List (List Char) → List (List Char) → List (List Char)
  | acc, [] => acc.reverse
  | acc, seg :: rest =>
    if seg = [] ∨ seg = ['.'] then normalizeSegments allowAboveRoot acc rest
    else if seg = ['.', '.'] then
      match acc with
      | [] =>
        if allowAboveRoot then normalizeSegments allowAboveRoot [seg] rest
        else normalizeSegments allowAboveRoot [] rest
      | top :: acc1 =>
        if top = ['.', '.'] then
          if allowAboveRoot then normalizeSegments allowAboveRoot (seg :: acc) rest
          else normalizeSegments allowAboveRoot acc rest
        else normalizeSegments allowAboveRoot acc1 rest
    else normalizeSegments allowAboveRoot (seg :: acc) rest

/-- Join segments with `/`. -/
def joinSlash : List (List Char) → List Char
  | [] => []
  | [s] => s
  | s :: ss => s ++ '/' :: joinSlash ss

/-- The function `path.normalize` for POSIX paths. -/
def pathNormalize (p : List Char) : List Char :=
  if p = [] then ['.']
  else
    let isAbsolute := p.head? == some '/'
    let trailingSeparator := p.getLast? == some '/'
    let s := joinSlash (normalizeSegments (!isAbsolute) [] (splitSlash p))
    if s = [] then
      if isAbsolute then ['/'] else if trailingSeparator then ['.', '/'] else ['.']
    else
      (if isAbsolute then '/' :: s else s) ++ (if trailingSeparator then ['/'] else [])

/-- The function `path.join`: the non-empty arguments joined by `/`, normalized. -/
def pathJoin (args : List (List Char)) : List Char :=
  match args.filter (fun a => a ≠ []) with
  | [] => ['.']
  | parts => pathNormalize (joinSlash parts)

/-- The call `fs.access(file)`: throws the injected failure, or `ENOENT` when
the file does not exist. -/
def fsAccess (env : Env) (file : List Char) : Eff Unit := do
  logCall (.fsAccess file)
  let w ← getWorld
  match env.fsFails file with
  | some code => throw (.fsError code)
  | none => if file ∈ w.files then pure () else throw (.fsError "ENOENT")

/-- The call `fs.unlink(file)`: removes the file, or throws like `fs.access`. -/
def fsUnlink (env : Env) (file : List Char) : Eff Unit := do
  logCall (.fsUnlink file)
  let w ← getWorld
  match env.fsFails file with
  | some code => throw (.fsError code)
  | none =>
    if file ∈ w.files then modifyWorld fun w => { w with files := w.files.erase file }
    else throw (.fsError "ENOENT")

/-- Which of the free identifiers `path` and `fs` used by `deleteStretches`
are bound in the scope of the module: `path` to the path module of Node,
`fs` to the promise interface of its file system module. Reading an
identifier that is not bound throws a `ReferenceError`. -/
structure ModuleScope where
  path : Bool
  fs : Bool
  deriving DecidableEq

/-- The scope of `controllers/stretches.js`: its three `require` lines bind
`mongoose`, `yogaworkoutStretches` and `uploadFile, getFile, deleteFile`;
neither `path` nor `fs` is declared anywhere in the file. -/
def stretchesModule : ModuleScope := { path := false, fs := false }

/-! ## `controllers/stretches.js` -/

/-- The handler `getAllStretches`. -/
def getAllStretches (env : Env) (_req : Req) : Eff Response := do
  try
    let stretchess ← stretchesFind env
    if stretchess.length = 0 then
      return { status := 200, body := .stretchess (some "No Stretches Added!") [] }
    else
      return { status := 200, body := .stretchess none stretchess }
  catch _ =>
    return { status := 500, body := .message "Server Error" }

/-- The handler `addStretches`. -/
def addStretches (env : Env) (req : Req) : Eff Response := do
  try
    if !req.body.stretchesName.truthy then
      return { status := 400, body := .message "Enter Stretch Name!" }
    let image : String :=
      match req.file with
      | some filePath => filePath
      | none => ""
    let stretchesName := req.body.stretchesName
    let description := req.body.description
    let isActive := if req.body.isActive.truthy then req.body.isActive else .num 1
    stretchesSave env stretchesName description isActive image
    return { status := 201, body := .message "Stretch Added successfully!" }
  catch _ =>
    return { status := 500, body := .message "Server Error" }

/-- The handler `updateStretches`; its body is not inside a `try`. -/
def updateStretches (env : Env) (req : Req) : Eff Response := do
  if !req.body.stretchesName.truthy then
    return { status := 400, body := .message "Enter Stretch Name!" }
  let stretchesId := req.paramsId
  let stretchesName := req.body.stretchesName
  let description := req.body.description
  let isActive := if req.body.isActive.truthy then req.body.isActive else .num 1
  if env.isValid (.str stretchesId) then
    let updatedStretches ←
      stretchesFindByIdAndUpdate env stretchesId stretchesName description isActive
    match updatedStretches with
    | none => return { status := 404, body := .message "Stretch not found" }
    | some doc => return { status := 200, body := .stretchDoc doc }
  else
    return { status := 500, body := .message "Invalid ObjectId" }

/-- The inner `try` of the cleanup in `deleteStretches`: check that the file
exists, unlink it, and take `ENOENT` as done. -/
def unlinkIfPresent (scope : ModuleScope) (env : Env) (fullPath : List Char) : Eff Unit := do
  try
    if !scope.fs then
      throw (JsError.referenceError "fs")
    fsAccess env fullPath
    fsUnlink env fullPath
  catch fileError =>
    if fileError.code = some "ENOENT" then
      pure ()
    else
      throw fileError

/-- The file cleanup inside `deleteStretches` (the outer `try` around the
removal of `documentExists.image`), under a module scope. -/
def cleanupImage (scope : ModuleScope) (env : Env) (image : String) : Eff Unit := do
  try
    if !scope.path then
      throw (JsError.referenceError "path")
    let fullPath := pathJoin [env.dirname, ['.', '.'], image.toList]
    let uploadsDir := pathJoin [env.dirname, ['.', '.']]
    if !(pathNormalize uploadsDir).isPrefixOf (pathNormalize fullPath) then
      throw (JsError.error "Invalid file path - security violation")
    unlinkIfPresent scope env fullPath
  catch _ =>
    pure ()

/-- The handler `deleteStretches` under a module scope. -/
def deleteStretchesIn (scope : ModuleScope) (env : Env) (req : Req) : Eff Response := do
  let stretchesId := req.paramsId
  if !env.isValid (.str stretchesId) then
    return { status := 400, body := .message "Invalid Stretch ID" }
  try
    let documentExists ← stretchesFindOne env stretchesId
    match documentExists with
    | some doc =>
      let deletedCount ← stretchesDeleteOne env stretchesId
      if deletedCount = 0 then
        return { status := 404, body := .message "Stretch not found" }
      else
        if doc.image ≠ "" then
          cleanupImage scope env doc.image
      return { status := 200,
               body := .deletedStretches "Stretch deleted successfully" deletedCount }
    | none =>
      return { status := 500, body := .message "No document found to delete." }
  catch _ =>
    return { status := 500, body := .message "Failed to delete Stretch" }

/-- The handler `deleteStretches` as the module defines it. -/
def deleteStretches (env : Env) (req : Req) : Eff Response :=
  deleteStretchesIn stretchesModule env req

/-- The position of the highest set bit of `n`, with fuel. -/
def log2Fuel : Nat → Nat → Nat
  | 0, _ => 0
  | fuel + 1, n => if n < 2 then 0 else log2Fuel fuel (n / 2) + 1

/-- The Number value of an integer literal: below `2 ^ 53` the integer itself,
above it the nearest value with a mantissa of 53 bits (ties go to the even
mantissa), and `none` for `Infinity`. -/
def roundToNumber (n : Nat) : Option Nat :=
  if n < 2 ^ 53 then some n
  else
    let e := log2Fuel n n - 52
    let q := n / 2 ^ e
    let r := n % 2 ^ e
    let q1 := if 2 * r > 2 ^ e ∨ (2 * r = 2 ^ e ∧ q % 2 = 1) then q + 1 else q
    if (if q1 < 2 ^ 53 then e ≤ 971 else e ≤ 970) then some (q1 * 2 ^ e) else none

/-- Whether the integer `v` rounds to the Number `x`, for `x` at least `2 ^ 53`:
`v` lies within half a unit in the last place of `x`, the bounds included
when the mantissa of `x` is even. Everything is scaled by 4 so that the lower
bound of a power of two stays an integer. -/
def roundsTo (x v : Nat) : Bool :=
  let e := log2Fuel x x - 52
  let m := x / 2 ^ e
  let lo4 := 4 * x - (if m = 2 ^ 52 then 2 ^ e else 2 ^ (e + 1))
  let hi4 := 4 * x + 2 ^ (e + 1)
  if m % 2 = 0 then decide (lo4 ≤ 4 * v ∧ 4 * v ≤ hi4) else decide (lo4 < 4 * v ∧ 4 * v < hi4)

/-- The number of decimal digits of `n`. -/
def digitCount (n : Nat) : Nat := (Nat.toDigits 10 n).length

/-- The digits `Number.prototype.toString` prints: the least number `k` of
digits for which some `s * 10 ^ p` with `k` digits in `s` rounds to `x`, and
among the candidates the one closest to `x`. The result is `(s, p)`. -/
def shortestFrom (x nd : Nat) : Nat → Nat → Nat × Nat
  | 0, _ => (x, 0)
  | fuel + 1, k =>
    let p := nd - k
    let sLo := x / 10 ^ p
    let sHi := sLo + 1
    let okLo := roundsTo x (sLo * 10 ^ p)
    let okHi := roundsTo x (sHi * 10 ^ p)
    let dLo := x - sLo * 10 ^ p
    let dHi := sHi * 10 ^ p - x
    if okLo && okHi then
      if dLo < dHi then (sLo, p) else if dHi < dLo then (sHi, p)
      else if sLo % 2 = 0 then (sLo, p) else (sHi, p)
    else if okLo then (sLo, p)
    else if okHi then (sHi, p)
    else shortestFrom x nd fuel (k + 1)

/-- Move trailing zeros of `s` into the exponent. -/
def stripZeros : Nat → Nat × Nat → Nat × Nat
  | 0, sp => sp
  | fuel + 1, (s, p) => if s ≠ 0 ∧ s % 10 = 0 then stripZeros fuel (s / 10, p + 1) else (s, p)

/-- The conversion `Number.prototype.toString` on a Number with a non-negative
integer value: the digits followed by zeros up to 21 digits, the exponent
form from `1e21` on. -/
def numberToString (x : Nat) : String :=
  if x < 2 ^ 53 then String.mk (Nat.toDigits 10 x)
  else
    let nd := digitCount x
    let (s, p) := stripZeros 400 (shortestFrom x nd 17 1)
    let ds := Nat.toDigits 10 s
    let n := ds.length + p
    if n ≤ 21 then String.mk (ds ++ List.replicate p '0')
    else
      match ds with
      | [] => ""
      | [d] => String.mk (d :: 'e' :: '+' :: Nat.toDigits 10 (n - 1))
      | d :: rest => String.mk (d :: '.' :: rest ++ 'e' :: '+' :: Nat.toDigits 10 (n - 1))

/-- The conversion `toString()` of the Number that the integer `n` denotes. -/
def intToStringJs (n : Int) : String :=
  match roundToNumber n.natAbs with
  | none => if n < 0 then "-Infinity" else "Infinity"
  | some x => if n < 0 then "-" ++ numberToString x else numberToString x

/-- The conversion `x.toString()`; it throws on `undefined` and `null`. -/
def JVal.toStringJs : JVal → Except JsError String
  | .undefined => .error (.typeError "Cannot read properties of undefined")
  | .null => .error (.typeError "Cannot read properties of null")
  | .bool b => .ok (if b then "true" else "false")
  | .num n => .ok (intToStringJs n)
  | .str s => .ok s

/-- The handler `changeStretchesStatus`; its body is not inside a `try`. -/
def changeStretchesStatus (env : Env) (req : Req) : Eff Response := do
  let stretchesId ←
    match req.body.id.toStringJs with
    | .ok s => pure s
    | .error e => throw e
  let stretchesStatus := req.body.status
  if env.isValid (.str stretchesId) then
    let updatedStretches ← stretchesFindOneAndUpdate env stretchesId stretchesStatus
    match updatedStretches with
    | none => return { status := 404, body := .message "Stretches not found" }
    | some doc => return { status := 200, body := .stretchDoc doc }
  else
    return { status := 500, body := .message "Invalid ObjectId" }

/-! ## `controllers/week.js` -/

/-- Modelled from the spec: `create(fields)` of the week model, which is not
among the sources; the call `new Model(fields).save()`. -/
def weekSave (env : Env) (challenges_Id weekName : JVal) : Eff Unit := do
  storeCall env .weekSave
  modifyWorld fun w =>
    { w with
      weeks := w.weeks ++
        [{ _id := env.newId w.clock, challenges_Id := challenges_Id, weekName := weekName,
           createdAt := w.clock }]
      clock := w.clock + 1 }

/-- Modelled from the spec: `listAll` of the week model; the query `find()`
without a sort. -/
def weekFind (env : Env) : Eff (List Week) := do
  storeCall env .weekFind
  let w ← getWorld
  pure w.weeks

/-- Modelled from the spec: the join of `listByForeignKey`, the step
`populate(path: challenges_Id, select: _id challengesName)` on one week. -/
def populateWeek (challenges : List Challenge) (wk : Week) : PopulatedWeek :=
  { _id := wk._id
    challenges_Id :=
      match wk.challenges_Id with
      | .str cid => challenges.find? (fun c => c._id == cid)
      | _ => none
    weekName := wk.weekName
    createdAt := wk.createdAt }

/-- Modelled from the spec: `listByForeignKey(parentId, joinDisplayField)` of
the week model; the query `find(challenges_Id: id).populate(...)`. -/
def weekFindByChallenge (env : Env) (id : String) : Eff (List PopulatedWeek) := do
  storeCall env (.weekFindByChallenge id)
  let w ← getWorld
  pure ((w.weeks.filter (fun wk => wk.challenges_Id == .str id)).map (populateWeek w.challenges))

/-- Modelled from the spec: `updateById(id, fields)` of the week model; the
call `findByIdAndUpdate(id, weekName, new: true)`. -/
def weekFindByIdAndUpdate (env : Env) (id : String) (weekName : JVal) :
    Eff (Option Week) := do
  storeCall env (.weekFindByIdAndUpdate id)
  let w ← getWorld
  match w.weeks.find? (fun d => d._id == id) with
  | none => pure none
  | some d =>
    let d1 : Week := { d with weekName := setIfDefined weekName d.weekName }
    modifyWorld fun w =>
      { w with weeks := updateFirst (fun d => d._id == id) (fun _ => d1) w.weeks }
    pure (some d1)

/-- Modelled from the spec: `deleteById(id)` of the week model returns the
count of removed records, 0 or 1; the call `deleteOne(_id: id)`. -/
def weekDeleteOne (env : Env) (id : String) : Eff Nat := do
  storeCall env (.weekDeleteOne id)
  let w ← getWorld
  if w.weeks.any (fun d => d._id == id) then
    modifyWorld fun w => { w with weeks := eraseFirst (fun d => d._id == id) w.weeks }
    pure 1
  else
    pure 0

/-- The handler `addWeek`. -/
def addWeek (env : Env) (req : Req) : Eff Response := do
  try
    let challenges_id := req.body.challenges_id
    if !req.body.weekName.truthy then
      return { status := 400, body := .message "Enter Week Name!" }
    if !env.isValid challenges_id then
      return { status := 400, body := .message "Invalid Challenges ID" }
    weekSave env challenges_id req.body.weekName
    return { status := 201, body := .message "Week Added successfully!" }
  catch _ =>
    return { status := 500, body := .message "Server Error" }

/-- The handler `getAllWeeks`. -/
def getAllWeeks (env : Env) (_req : Req) : Eff Response := do
  try
    let weeks ← weekFind env
    if weeks.length = 0 then
      return { status := 200, body := .weeks (some "No Challenges Added!") [] }
    else
      return { status := 200, body := .weeks none weeks }
  catch _ =>
    return { status := 500, body := .message "Server Error" }

/-- The handler `getWeeksByChallengesId`. -/
def getWeeksByChallengesId (env : Env) (req : Req) : Eff Response := do
  try
    let challengesId := req.paramsId
    if !env.isValid (.str challengesId) then
      return { status := 400, body := .message "Invalid Challenges ID" }
    let weeks ← weekFindByChallenge env challengesId
    if weeks.length = 0 then
      return { status := 400, body := .message "No Weeks Added!" }
    else
      return { status := 200, body := .weeksPopulated weeks }
  catch _ =>
    return { status := 500, body := .message "Server Error" }

/-- The handler `updateWeek`; its body is not inside a `try`. -/
def updateWeek (env : Env) (req : Req) : Eff Response := do
  let week_Id := req.paramsId
  if !req.body.weekName.truthy then
    return { status := 400, body := .message "Enter Week Name!" }
  let weekName := req.body.weekName
  if env.isValid (.str week_Id) then
    let updatedWeek ← weekFindByIdAndUpdate env week_Id weekName
    match updatedWeek with
    | none => return { status := 404, body := .message "Week not found" }
    | some doc => return { status := 200, body := .weekDoc doc }
  else
    return { status := 500, body := .message "Invalid ObjectId" }

/-- The handler `deleteWeek`. -/
def deleteWeek (env : Env) (req : Req) : Eff Response := do
  let weekId := req.paramsId
  if !env.isValid (.str weekId) then
    return { status := 400, body := .message "Invalid Week ID" }
  try
    let deletedCount ← weekDeleteOne env weekId
    if deletedCount = 0 then
      return { status := 404, body := .message "Week not found" }
    return { status := 200, body := .deletedWeek "Week deleted successfully" deletedCount }
  catch _ =>
    return { status := 500, body := .message "Failed to delete Week" }

/-! ## `controllers/userapis/customPlan.js` -/

/-- Modelled from the spec: the session check of `./user`, which is not among
the sources, takes the user, session token and device and answers with a
boolean; the answer is taken from the environment and the call is logged. -/
def checkUserLogin (env : Env) (user session device : JVal) : Eff Bool := do
  logCall (.checkUserLogin user session device)
  match env.checkUserLogin user session device with
  | .ok b => pure b
  | .error e => throw e

/-- Modelled from the spec: the plans of one user, newest first; the query
`find(user_id: u).sort(createdAt: -1)` on the custom plan model, which is not
among the sources. -/
def customPlanFind (env : Env) (user : JVal) : Eff (List CustomPlan) := do
  storeCall env (.customPlanFind user)
  let w ← getWorld
  pure ((w.customPlans.filter (fun p => p.user_id == user)).insertionSort
    (fun a b => b.createdAt ≤ a.createdAt))

/-- Modelled from the spec: the exercise rows of one plan; the query
`find(custom_plan_id: id)` on the custom plan exercise model, which is not
among the sources. It is started by one callback of the `map`, so its outcome
is kept for the continuation of that callback instead of being thrown at
once. -/
def customPlanExerciseFind (env : Env) (plan : String) :
    Eff (Except JsError (List CustomPlanExercise)) := fun w =>
  match storeCall env (.customPlanExerciseFind plan) w with
  | (.ok _, w1) =>
    (.ok (.ok (w1.customPlanExercises.filter (fun e => e.custom_plan_id == plan))), w1)
  | (.error e, w1) => (.ok (.error e), w1)

/-- The rest of the callback after its `await`: the object
`{ ...updatedItem, totalexercise: totalexercise.length }`. The argument
`updatedItem` is the value the identifier `updatedItem` is bound to, if it is
bound at all; reading an unbound identifier throws a `ReferenceError`. -/
def planEntry (updatedItem : Option CustomPlan)
    (found : Except JsError (List CustomPlanExercise)) : Except JsError PlanWithTotal :=
  match found with
  | .error e => .error e
  | .ok totalexercise =>
    match updatedItem with
    | none => .error (.referenceError "updatedItem")
    | some u => .ok { plan := u, totalexercise := totalexercise.length }

/-- The value of `Promise.all`: every result, or the first rejection. -/
def promiseAll {α : Type} : List (Except JsError α) → Except JsError (List α)
  | [] => .ok []
  | .error e :: _ => .error e
  | .ok a :: rest =>
    match promiseAll rest with
    | .ok as => .ok (a :: as)
    | .error e => .error e

/-- Start the callback of the `map` on every plan, in order: each call runs
up to its `await`, that is, issues its query. -/
def startCallbacks (env : Env) :
    List CustomPlan → Eff (List (CustomPlan × Except JsError (List CustomPlanExercise)))
  | [] => pure []
  | item :: rest => do
    let found ← customPlanExerciseFind env item._id
    let others ← startCallbacks env rest
    pure ((item, found) :: others)

/-- The handler `getCustomPlan`, given the binding of the identifier
`updatedItem` inside the callback for each `item`. -/
def getCustomPlanIn (updatedItem : CustomPlan → Option CustomPlan) (env : Env) (req : Req) :
    Eff Response := do
  try
    let data := req.body
    if data.user_id.truthy && !data.user_id.looseEqEmpty &&
        data.session.truthy && !data.session.looseEqEmpty &&
        data.device_id.truthy && !data.device_id.looseEqEmpty then
      let checkuserLogin ← checkUserLogin env data.user_id data.session data.device_id
      if checkuserLogin then
        let customPlan ← customPlanFind env data.user_id
        if customPlan.length = 0 then
          return { status := 400, body := .data 0 [] "Please Try Again" }
        else
          let started ← startCallbacks env customPlan
          let customPlanWithExercise ←
            match promiseAll (started.map fun (item, found) =>
              planEntry (updatedItem item) found) with
            | .ok entries => pure entries
            | .error e => throw e
          return { status := 200, body := .data 1 customPlanWithExercise "" }
      else
        return { status := 201, body := .data 0 [] "Please login first" }
    else
      return { status := 200, body := .data 1 [] "Variable not set" }
  catch _ =>
    return { status := 500, body := .data 0 [] "Server Error" }

/-- The handler `getCustomPlan` as the module defines it: `updatedItem` is
declared nowhere in `customPlan.js`, neither in the callback, nor in the
handler, nor at the top of the module. -/
def getCustomPlan (env : Env) (req : Req) : Eff Response :=
  getCustomPlanIn (fun _ => none) env req

/-! ## Notions of the specification and sample environments -/

/-- A field is absent (`undefined`, `null`) or empty (loosely equal to the
empty string, the test `!= ''` of the handlers). -/
def JVal.absentOrEmpty : JVal → Bool
  | .undefined => true
  | .null => true
  | v => v.looseEqEmpty

/-- One of the three required fields of `getCustomPlan` is absent or empty. -/
def missingRequired (b : ReqBody) : Bool :=
  b.user_id.absentOrEmpty || b.session.absentOrEmpty || b.device_id.absentOrEmpty

/-- The status of the response, if the handler sent one. -/
def statusOf (r : Except JsError Response × World) : Option Nat :=
  match r.1 with
  | .ok resp => some resp.status
  | .error _ => none

/-- A hexadecimal digit. -/
def hexChar (c : Char) : Bool :=
  ('0' ≤ c ∧ c ≤ '9') ∨ ('a' ≤ c ∧ c ≤ 'f') ∨ ('A' ≤ c ∧ c ≤ 'F')

/-- Modelled from the spec: the identifier format of the store driver, which
is not part of the controllers, is a string of 24 hexadecimal characters. -/
def objectIdIsValid : JVal → Bool
  | .str s => s.toList.length == 24 && s.toList.all hexChar
  | _ => false

/-- An environment in which nothing fails: identifiers are 24 hexadecimal
characters, the session check passes, the controllers live in
`/app/controllers`. -/
def sampleEnv : Env :=
  { isValid := objectIdIsValid
    checkUserLogin := fun _ _ _ => .ok true
    storeFails := fun _ => false
    fsFails := fun _ => none
    newId := fun n => if n = 0 then "65f000000000000000000000" else "65f000000000000000000001"
    dirname := "/app/controllers".toList }

/-- The environment `sampleEnv` with a store whose every call throws. -/
def failingStoreEnv : Env := { sampleEnv with storeFails := fun _ => true }

/-- The environment `sampleEnv` with a session check that answers `false`. -/
def loggedOutEnv : Env := { sampleEnv with checkUserLogin := fun _ _ _ => .ok false }

/-! ## Theorems -/

theorem absentOrEmpty_iff_check_fails (v : JVal) :
    v.absentOrEmpty = true ↔ ¬ (v.truthy = true ∧ v.looseEqEmpty = false) := by
  cases v <;> simp [JVal.absentOrEmpty, JVal.truthy, JVal.looseEqEmpty]

theorem absentOrEmpty_not_truthy (v : JVal) (h : v.absentOrEmpty = true) :
    v.truthy = false := by
  cases v <;> simp_all [JVal.absentOrEmpty, JVal.truthy, JVal.looseEqEmpty]

/-- C7: when the required name is absent or empty, `addStretches` and
`updateStretches` answer 400 "Enter Stretch Name!" and `addWeek` and
`updateWeek` answer 400 "Enter Week Name!", whatever the identifier and
whatever the identifier check says, and the world (collections and call log)
is left as it was; a create request that passes validation and whose save
does not throw is answered with 201. -/
theorem required_name_checked_first (env : Env) (req : Req) (w : World) :
    (req.body.stretchesName.absentOrEmpty = true →
      addStretches env req w
        = (.ok { status := 400, body := .message "Enter Stretch Name!" }, w) ∧
      updateStretches env req w
        = (.ok { status := 400, body := .message "Enter Stretch Name!" }, w)) ∧
    (req.body.weekName.absentOrEmpty = true →
      addWeek env req w = (.ok { status := 400, body := .message "Enter Week Name!" }, w) ∧
      updateWeek env req w
        = (.ok { status := 400, body := .message "Enter Week Name!" }, w)) ∧
    (req.body.stretchesName.truthy = true → env.storeFails w.log.length = false →
      (addStretches env req w).1
        = .ok { status := 201, body := .message "Stretch Added successfully!" }) ∧
    (req.body.weekName.truthy = true → env.isValid req.body.challenges_id = true →
      env.storeFails w.log.length = false →
      (addWeek env req w).1
        = .ok { status := 201, body := .message "Week Added successfully!" }) := by
  refine ⟨fun h => ?_, fun h => ?_, fun h hs => ?_, fun h hv hs => ?_⟩
  · have h1 := absentOrEmpty_not_truthy _ h
    constructor
    · simp [addStretches, h1, tryCatch, tryCatchThe, MonadExcept.tryCatch, Eff.tryCatch,
        bind, Eff.bind, pure]
    · simp [updateStretches, h1, bind, Eff.bind, pure]
  · have h1 := absentOrEmpty_not_truthy _ h
    constructor
    · simp [addWeek, h1, tryCatch, tryCatchThe, MonadExcept.tryCatch, Eff.tryCatch,
        bind, Eff.bind, pure]
    · simp [updateWeek, h1, bind, Eff.bind, pure]
  · simp [addStretches, h, hs, tryCatch, tryCatchThe, MonadExcept.tryCatch, Eff.tryCatch,
      bind, Eff.bind, pure, stretchesSave, storeCall, modifyWorld]
  · simp [addWeek, h, hv, hs, tryCatch, tryCatchThe, MonadExcept.tryCatch, Eff.tryCatch,
      bind, Eff.bind, pure, weekSave, storeCall, modifyWorld]

/-- Witness for C7: an update of an existing identifier with an empty name,
an add without any name, and two successful creations. -/
theorem required_name_checked_first_witness :
    (updateStretches sampleEnv
        { paramsId := "65f000000000000000000000", body := { stretchesName := .str "" } } {}
      = (.ok { status := 400, body := .message "Enter Stretch Name!" }, {})) ∧
    (addWeek sampleEnv { body := { challenges_id := .str "zz" } } {}
      = (.ok { status := 400, body := .message "Enter Week Name!" }, {})) ∧
    ((addStretches sampleEnv { body := { stretchesName := .str "Cobra" } } {}).1
      = .ok { status := 201, body := .message "Stretch Added successfully!" }) ∧
    ((addWeek sampleEnv
        { body := { weekName := .str "W1", challenges_id := .str "65f0000000000000000000aa" } }
        {}).1
      = .ok { status := 201, body := .message "Week Added successfully!" }) :=
  ⟨((required_name_checked_first sampleEnv
        { paramsId := "65f000000000000000000000", body := { stretchesName := .str "" } }
        {}).1 (by decide)).2,
   ((required_name_checked_first sampleEnv { body := { challenges_id := .str "zz" } }
        {}).2.1 (by decide)).1,
   (required_name_checked_first sampleEnv { body := { stretchesName := .str "Cobra" } }
        {}).2.2.1 (by decide) (by decide),
   (required_name_checked_first sampleEnv
        { body := { weekName := .str "W1", challenges_id := .str "65f0000000000000000000aa" } }
        {}).2.2.2 (by decide) (by decide) (by decide)⟩

/-! ### The custom plan handler -/

theorem missingRequired_iff (b : ReqBody) :
    missingRequired b = false ↔
      (b.user_id.truthy && !b.user_id.looseEqEmpty && b.session.truthy &&
        !b.session.looseEqEmpty && b.device_id.truthy && !b.device_id.looseEqEmpty) = true := by
  rcases b with ⟨_, _, _, _, _, _, _, u, s, d⟩
  cases u <;> cases s <;> cases d <;>
    simp [missingRequired, JVal.absentOrEmpty, JVal.truthy, JVal.looseEqEmpty]

theorem getCustomPlan_missing (env : Env) (req : Req) (w : World)
    (h : missingRequired req.body = true) :
    getCustomPlan env req w
        = (.ok { status := 200, body := .data 1 [] "Variable not set" }, w) := by
  have h1 : (req.body.user_id.truthy && !req.body.user_id.looseEqEmpty &&
      req.body.session.truthy && !req.body.session.looseEqEmpty &&
      req.body.device_id.truthy && !req.body.device_id.looseEqEmpty) = false := by
    cases hb : (req.body.user_id.truthy && !req.body.user_id.looseEqEmpty &&
      req.body.session.truthy && !req.body.session.looseEqEmpty &&
      req.body.device_id.truthy && !req.body.device_id.looseEqEmpty)
    · rfl
    · rw [← missingRequired_iff] at hb; rw [hb] at h; cases h
  simp only [getCustomPlan, getCustomPlanIn]
  simp [h1, tryCatch, tryCatchThe, MonadExcept.tryCatch, Eff.tryCatch, bind, Eff.bind, pure]

theorem getCustomPlan_logged_out (env : Env) (req : Req) (w : World)
    (h : missingRequired req.body = false)
    (hc : env.checkUserLogin req.body.user_id req.body.session req.body.device_id
      = .ok false) :
    getCustomPlan env req w
      = (.ok { status := 201, body := .data 0 [] "Please login first" },
         { w with log := w.log ++
            [.checkUserLogin req.body.user_id req.body.session req.body.device_id] }) := by
  rw [missingRequired_iff] at h
  simp only [getCustomPlan, getCustomPlanIn]
  simp [h, hc, tryCatch, tryCatchThe, MonadExcept.tryCatch, Eff.tryCatch, bind, Eff.bind,
    pure, checkUserLogin, logCall]

theorem getCustomPlan_check_throws (env : Env) (req : Req) (w : World) (e : JsError)
    (h : missingRequired req.body = false)
    (hc : env.checkUserLogin req.body.user_id req.body.session req.body.device_id
      = .error e) :
    (getCustomPlan env req w).1
      = .ok { status := 500, body := .data 0 [] "Server Error" } := by
  rw [missingRequired_iff] at h
  simp only [getCustomPlan, getCustomPlanIn]
  simp [h, hc, tryCatch, tryCatchThe, MonadExcept.tryCatch, Eff.tryCatch, bind, Eff.bind,
    pure, checkUserLogin, logCall, throw, throwThe, MonadExcept.throw, Eff.throw]

theorem startCallbacks_ok (env : Env) (plans : List CustomPlan) (w : World) :
    ∃ l w1, startCallbacks env plans w = (.ok l, w1) ∧ l.length = plans.length := by
  induction plans generalizing w with
  | nil => exact ⟨[], w, rfl, rfl⟩
  | cons item rest ih =>
    have hfind : ∃ f w0, customPlanExerciseFind env item._id w = (.ok f, w0) := by
      unfold customPlanExerciseFind
      cases hsc : storeCall env (Call.customPlanExerciseFind item._id) w with
      | mk r w0 =>
        cases r with
        | ok a => exact ⟨_, _, rfl⟩
        | error e => exact ⟨_, _, rfl⟩
    obtain ⟨f, w0, hf⟩ := hfind
    obtain ⟨l, w1, hl, hlen⟩ := ih w0
    refine ⟨(item, f) :: l, w1, ?_, by simp [hlen]⟩
    simp [startCallbacks, bind, Eff.bind, hf, hl, pure]

theorem promiseAll_unbound (l : List (CustomPlan × Except JsError (List CustomPlanExercise)))
    (h : l ≠ []) :
    ∃ e, promiseAll (l.map fun x => planEntry none x.2) = .error e := by
  cases l with
  | nil => exact absurd rfl h
  | cons x xs =>
    obtain ⟨item, found⟩ := x
    cases found with
    | error e => exact ⟨e, by simp [planEntry, promiseAll]⟩
    | ok t => exact ⟨.referenceError "updatedItem", by simp [planEntry, promiseAll]⟩

theorem insertionSort_ne_nil {α : Type} (r : α → α → Prop) [DecidableRel r] (l : List α)
    (h : l ≠ []) : l.insertionSort r ≠ [] := by
  intro h0
  have := List.length_insertionSort r l
  rw [h0] at this
  exact h (List.length_eq_zero.mp this.symm)

theorem getCustomPlan_find_throws (env : Env) (req : Req) (w : World)
    (h : missingRequired req.body = false)
    (hc : env.checkUserLogin req.body.user_id req.body.session req.body.device_id = .ok true)
    (hsf : env.storeFails (w.log.length + 1) = true) :
    (getCustomPlan env req w).1
      = .ok { status := 500, body := .data 0 [] "Server Error" } := by
  rw [missingRequired_iff] at h
  simp only [getCustomPlan, getCustomPlanIn]
  simp [h, hc, hsf, tryCatch, tryCatchThe, MonadExcept.tryCatch, Eff.tryCatch, bind,
    Eff.bind, pure, checkUserLogin, logCall, customPlanFind, storeCall]

theorem getCustomPlan_no_plan (env : Env) (req : Req) (w : World)
    (h : missingRequired req.body = false)
    (hc : env.checkUserLogin req.body.user_id req.body.session req.body.device_id = .ok true)
    (hsf : env.storeFails (w.log.length + 1) = false)
    (hnone : ∀ p ∈ w.customPlans, ¬ p.user_id = req.body.user_id) :
    (getCustomPlan env req w).1
      = .ok { status := 400, body := .data 0 [] "Please Try Again" } := by
  rw [missingRequired_iff] at h
  simp only [getCustomPlan, getCustomPlanIn]
  simp [h, hc, hsf, tryCatch, tryCatchThe, MonadExcept.tryCatch, Eff.tryCatch, bind,
    Eff.bind, pure, checkUserLogin, logCall, customPlanFind, storeCall, getWorld]
  rw [if_pos hnone]

theorem getCustomPlan_some_plan (env : Env) (req : Req) (w : World)
    (h : missingRequired req.body = false)
    (hc : env.checkUserLogin req.body.user_id req.body.session req.body.device_id = .ok true)
    (hne : ∃ p ∈ w.customPlans, p.user_id = req.body.user_id) :
    (getCustomPlan env req w).1
      = .ok { status := 500, body := .data 0 [] "Server Error" } := by
  cases hsf : env.storeFails (w.log.length + 1) with
  | true => exact getCustomPlan_find_throws env req w h hc hsf
  | false =>
    rw [missingRequired_iff] at h
    simp only [getCustomPlan, getCustomPlanIn]
    have hfilter :
        List.filter (fun p => p.user_id == req.body.user_id) w.customPlans ≠ [] := by
      obtain ⟨p, hp, hpu⟩ := hne
      intro h0
      have : p ∈ List.filter (fun p => p.user_id == req.body.user_id) w.customPlans :=
        List.mem_filter.mpr ⟨hp, by simp [hpu]⟩
      rw [h0] at this
      cases this
    obtain ⟨l, w1, hl, hlen⟩ := startCallbacks_ok env
      (List.insertionSort (fun a b => b.createdAt ≤ a.createdAt)
        (List.filter (fun p => p.user_id == req.body.user_id) w.customPlans))
      { w with log := w.log ++
          [Call.checkUserLogin req.body.user_id req.body.session req.body.device_id,
           Call.customPlanFind req.body.user_id] }
    have hlne : l ≠ [] := by
      intro h0
      rw [h0] at hlen
      exact insertionSort_ne_nil _ _ hfilter (List.length_eq_zero.mp hlen.symm)
    obtain ⟨e, he⟩ := promiseAll_unbound l hlne
    have hne2 : ¬ ∀ a ∈ w.customPlans, ¬a.user_id = req.body.user_id := by
      push_neg; exact hne
    simp [h, hc, hsf, tryCatch, tryCatchThe, MonadExcept.tryCatch, Eff.tryCatch, bind,
      Eff.bind, pure, checkUserLogin, logCall, customPlanFind, storeCall, getWorld, hne2, hl,
      he, throw, throwThe, MonadExcept.throw, Eff.throw]

theorem getCustomPlan_present_not_unset (env : Env) (req : Req) (w : World)
    (h : missingRequired req.body = false) :
    (getCustomPlan env req w).1
      ≠ .ok { status := 200, body := .data 1 [] "Variable not set" } := by
  cases hc : env.checkUserLogin req.body.user_id req.body.session req.body.device_id with
  | error e => rw [getCustomPlan_check_throws env req w e h hc]; decide
  | ok b =>
    cases b with
    | false => rw [getCustomPlan_logged_out env req w h hc]; simp
    | true =>
      by_cases hne : ∃ p ∈ w.customPlans, p.user_id = req.body.user_id
      · rw [getCustomPlan_some_plan env req w h hc hne]; decide
      · cases hsf : env.storeFails (w.log.length + 1) with
        | true => rw [getCustomPlan_find_throws env req w h hc hsf]; decide
        | false =>
          push_neg at hne
          rw [getCustomPlan_no_plan env req w h hc hsf hne]; decide

/-- C10: with the three fields present and a session check that answers
`false`, `getCustomPlan` sends status 201 with success 0 and "Please login
first", and the only call it has made is the session check (no custom plan
query); that response is neither the 500 "Server Error" response nor the
"Variable not set" response; and "Variable not set" is sent exactly when one
of the three fields is absent or empty, in which case the world, call log
included, is untouched (no session check). -/
theorem getCustomPlan_session_gate (env : Env) (req : Req) (w : World) :
    (missingRequired req.body = false →
      env.checkUserLogin req.body.user_id req.body.session req.body.device_id = .ok false →
      getCustomPlan env req w
        = (.ok { status := 201, body := .data 0 [] "Please login first" },
           { w with log := w.log ++
              [.checkUserLogin req.body.user_id req.body.session req.body.device_id] })) ∧
    (({ status := 201, body := .data 0 [] "Please login first" } : Response)
        ≠ { status := 500, body := .data 0 [] "Server Error" } ∧
      ({ status := 201, body := .data 0 [] "Please login first" } : Response)
        ≠ { status := 200, body := .data 1 [] "Variable not set" }) ∧
    ((getCustomPlan env req w).1
        = .ok { status := 200, body := .data 1 [] "Variable not set" }
      ↔ missingRequired req.body = true) ∧
    (missingRequired req.body = true → (getCustomPlan env req w).2 = w) := by
  refine ⟨getCustomPlan_logged_out env req w, ⟨by decide, by decide⟩, ⟨fun hr => ?_, fun hm => ?_⟩,
    fun hm => ?_⟩
  · cases hm : missingRequired req.body with
    | true => rfl
    | false => exact absurd hr (getCustomPlan_present_not_unset env req w hm)
  · rw [getCustomPlan_missing env req w hm]
  · rw [getCustomPlan_missing env req w hm]

/-- Witness for C10: a logged-out user with all three fields, and a request
whose session token is the empty string. -/
theorem getCustomPlan_session_gate_witness :
    (getCustomPlan loggedOutEnv
        { body := { user_id := .str "u1", session := .str "tok", device_id := .str "d1" } } {}
      = (.ok { status := 201, body := .data 0 [] "Please login first" },
         { log := [.checkUserLogin (.str "u1") (.str "tok") (.str "d1")] })) ∧
    ((getCustomPlan loggedOutEnv
        { body := { user_id := .str "u1", session := .str "", device_id := .str "d1" } } {}).2
      = {}) :=
  ⟨(getCustomPlan_session_gate loggedOutEnv
      { body := { user_id := .str "u1", session := .str "tok", device_id := .str "d1" } }
      {}).1 (by decide) (by decide),
   (getCustomPlan_session_gate loggedOutEnv
      { body := { user_id := .str "u1", session := .str "", device_id := .str "d1" } }
      {}).2.2.2 (by decide)⟩

/-- C3 (the code departs from it): with the three fields present, a passing
session check and at least one plan of the user, `getCustomPlan` answers 500
"Server Error" instead of 200 with the annotated plans, because the callback
reads the undeclared identifier `updatedItem`. -/
theorem getCustomPlan_with_plans_server_error (env : Env) (req : Req) (w : World)
    (h : missingRequired req.body = false)
    (hc : env.checkUserLogin req.body.user_id req.body.session req.body.device_id = .ok true)
    (hne : ∃ p ∈ w.customPlans, p.user_id = req.body.user_id) :
    (getCustomPlan env req w).1
      = .ok { status := 500, body := .data 0 [] "Server Error" } :=
  getCustomPlan_some_plan env req w h hc hne

/-- Witness for C3: user `u1` with one plan that has two exercises. -/
theorem getCustomPlan_with_plans_server_error_witness :
    (getCustomPlan sampleEnv
        { body := { user_id := .str "u1", session := .str "tok", device_id := .str "d1" } }
        { customPlans := [{ _id := "65f0000000000000000000c1", user_id := .str "u1",
                            createdAt := 7, rest := [("name", .str "Morning")] }]
          customPlanExercises :=
            [{ _id := "65f0000000000000000000e1", custom_plan_id := "65f0000000000000000000c1" },
             { _id := "65f0000000000000000000e2",
               custom_plan_id := "65f0000000000000000000c1" }] }).1
      = .ok { status := 500, body := .data 0 [] "Server Error" } :=
  getCustomPlan_with_plans_server_error sampleEnv _ _ (by decide) (by decide)
    ⟨_, List.mem_singleton.mpr rfl, rfl⟩

/-! ### Empty results of the list handlers -/

theorem getAllStretches_empty (env : Env) (req : Req) (w : World)
    (hs : env.storeFails w.log.length = false) (he : w.stretches = []) :
    (getAllStretches env req w).1
      = .ok { status := 200, body := .stretchess (some "No Stretches Added!") [] } := by
  simp [getAllStretches, hs, he, tryCatch, tryCatchThe, MonadExcept.tryCatch, Eff.tryCatch,
    bind, Eff.bind, pure, stretchesFind, storeCall, getWorld]

theorem getAllWeeks_empty (env : Env) (req : Req) (w : World)
    (hs : env.storeFails w.log.length = false) (he : w.weeks = []) :
    (getAllWeeks env req w).1
      = .ok { status := 200, body := .weeks (some "No Challenges Added!") [] } := by
  simp [getAllWeeks, hs, he, tryCatch, tryCatchThe, MonadExcept.tryCatch, Eff.tryCatch,
    bind, Eff.bind, pure, weekFind, storeCall, getWorld]

theorem getWeeksByChallengesId_empty (env : Env) (req : Req) (w : World)
    (hs : env.storeFails w.log.length = false)
    (hv : env.isValid (.str req.paramsId) = true)
    (he : ∀ wk ∈ w.weeks, ¬ wk.challenges_Id = .str req.paramsId) :
    (getWeeksByChallengesId env req w).1
      = .ok { status := 400, body := .message "No Weeks Added!" } := by
  simp [getWeeksByChallengesId, hs, hv, tryCatch, tryCatchThe, MonadExcept.tryCatch,
    Eff.tryCatch, bind, Eff.bind, pure, weekFindByChallenge, storeCall, getWorld]
  rw [if_pos he]

/-- On a store without weeks, `getWeeksByChallengesId` with a well-formed
identifier of a challenge that does not exist answers 400 "No Weeks Added!"
and not 200. -/
theorem getWeeksByChallengesId_empty_is_400 :
    (getWeeksByChallengesId sampleEnv { paramsId := "65f0000000000000000000aa" } {}).1
        = .ok { status := 400, body := .message "No Weeks Added!" } ∧
    statusOf (getWeeksByChallengesId sampleEnv { paramsId := "65f0000000000000000000aa" } {})
        ≠ some 200 := by
  decide

/-- C8 (the code departs from it): when the store call succeeds and returns
no records, `getAllStretches` and `getAllWeeks` answer 200 with a "no
records" message and an empty list, but `getWeeksByChallengesId` with a
well-formed identifier that no week refers to answers 400 with the message
"No Weeks Added!" and without a list, an error status. -/
theorem empty_result_responses (env : Env) (req : Req) (w : World)
    (hs : env.storeFails w.log.length = false) :
    (w.stretches = [] →
      (getAllStretches env req w).1
        = .ok { status := 200, body := .stretchess (some "No Stretches Added!") [] }) ∧
    (w.weeks = [] →
      (getAllWeeks env req w).1
        = .ok { status := 200, body := .weeks (some "No Challenges Added!") [] }) ∧
    (env.isValid (.str req.paramsId) = true →
      (∀ wk ∈ w.weeks, ¬ wk.challenges_Id = .str req.paramsId) →
      (getWeeksByChallengesId env req w).1
        = .ok { status := 400, body := .message "No Weeks Added!" }) :=
  ⟨getAllStretches_empty env req w hs, getAllWeeks_empty env req w hs,
   getWeeksByChallengesId_empty env req w hs⟩

/-- Witness for C8: an empty store, and a store whose only week belongs to
another challenge. -/
theorem empty_result_responses_witness :
    ((getAllStretches sampleEnv {} {}).1
      = .ok { status := 200, body := .stretchess (some "No Stretches Added!") [] }) ∧
    ((getAllWeeks sampleEnv {} {}).1
      = .ok { status := 200, body := .weeks (some "No Challenges Added!") [] }) ∧
    ((getWeeksByChallengesId sampleEnv { paramsId := "65f0000000000000000000aa" }
        { weeks := [{ _id := "65f000000000000000000011",
                      challenges_Id := .str "65f0000000000000000000bb",
                      weekName := .str "W1", createdAt := 0 }] }).1
      = .ok { status := 400, body := .message "No Weeks Added!" }) :=
  ⟨(empty_result_responses sampleEnv {} {} (by decide)).1 rfl,
   (empty_result_responses sampleEnv {} {} (by decide)).2.1 rfl,
   (empty_result_responses sampleEnv { paramsId := "65f0000000000000000000aa" }
      { weeks := [{ _id := "65f000000000000000000011",
                    challenges_Id := .str "65f0000000000000000000bb",
                    weekName := .str "W1", createdAt := 0 }] } (by decide)).2.2
      (by decide) (by decide)⟩

/-! ### Identifiers that are not well-formed -/

/-- C1 (the code departs from it): for an identifier the driver check
rejects, `deleteStretches`, `getWeeksByChallengesId`, `deleteWeek` and (with a
week name) `addWeek` answer 400 and leave the world, call log included, as it
was; `updateStretches` and `updateWeek` (with a name) also leave the world as
it was but answer 500 "Invalid ObjectId", a server-error status. -/
theorem invalid_identifier_responses (env : Env) (req : Req) (w : World) :
    (env.isValid (.str req.paramsId) = false →
      deleteStretches env req w
        = (.ok { status := 400, body := .message "Invalid Stretch ID" }, w) ∧
      getWeeksByChallengesId env req w
        = (.ok { status := 400, body := .message "Invalid Challenges ID" }, w) ∧
      deleteWeek env req w = (.ok { status := 400, body := .message "Invalid Week ID" }, w) ∧
      (req.body.stretchesName.truthy = true →
        updateStretches env req w
          = (.ok { status := 500, body := .message "Invalid ObjectId" }, w)) ∧
      (req.body.weekName.truthy = true →
        updateWeek env req w
          = (.ok { status := 500, body := .message "Invalid ObjectId" }, w))) ∧
    (env.isValid req.body.challenges_id = false → req.body.weekName.truthy = true →
      addWeek env req w
        = (.ok { status := 400, body := .message "Invalid Challenges ID" }, w)) := by
  refine ⟨fun hv => ⟨?_, ?_, ?_, fun hn => ?_, fun hn => ?_⟩, fun hv hn => ?_⟩
  · simp [deleteStretches, deleteStretchesIn, hv, bind, Eff.bind, pure]
  · simp [getWeeksByChallengesId, hv, tryCatch, tryCatchThe, MonadExcept.tryCatch,
      Eff.tryCatch, bind, Eff.bind, pure]
  · simp [deleteWeek, hv, bind, Eff.bind, pure]
  · simp [updateStretches, hv, hn, bind, Eff.bind, pure]
  · simp [updateWeek, hv, hn, bind, Eff.bind, pure]
  · simp [addWeek, hv, hn, tryCatch, tryCatchThe, MonadExcept.tryCatch, Eff.tryCatch,
      bind, Eff.bind, pure]

/-- Witness for C1: `updateStretches` and `updateWeek` on the identifier
`not-an-id`, and `addWeek` with a challenge identifier of 25 characters. -/
theorem invalid_identifier_responses_witness :
    (updateStretches sampleEnv
        { paramsId := "not-an-id", body := { stretchesName := .str "Cobra" } } {}
      = (.ok { status := 500, body := .message "Invalid ObjectId" }, {})) ∧
    (updateWeek sampleEnv { paramsId := "not-an-id", body := { weekName := .str "W1" } } {}
      = (.ok { status := 500, body := .message "Invalid ObjectId" }, {})) ∧
    (addWeek sampleEnv
        { body := { challenges_id := .str "65f0000000000000000000aab", weekName := .str "W1" } }
        {}
      = (.ok { status := 400, body := .message "Invalid Challenges ID" }, {})) :=
  ⟨((invalid_identifier_responses sampleEnv
      { paramsId := "not-an-id", body := { stretchesName := .str "Cobra" } } {}).1
        (by decide)).2.2.2.1 (by decide),
   ((invalid_identifier_responses sampleEnv
      { paramsId := "not-an-id", body := { weekName := .str "W1" } } {}).1
        (by decide)).2.2.2.2 (by decide),
   (invalid_identifier_responses sampleEnv
      { body := { challenges_id := .str "65f0000000000000000000aab", weekName := .str "W1" } }
      {}).2 (by decide) (by decide)⟩

/-! ### Store calls that throw -/

/-- C4 (the code departs from it): when the first store call of the handler
throws, the handlers that wrap their body in `try` answer 500 with a generic
message, but `updateStretches`, `updateWeek` and `changeStretchesStatus` have
no `try`: the exception escapes and no response is sent. -/
theorem store_error_handling (env : Env) (req : Req) (w : World)
    (hs : env.storeFails w.log.length = true) :
    (req.body.stretchesName.truthy = true → env.isValid (.str req.paramsId) = true →
      (updateStretches env req w).1 = .error (.storeError w.log.length)) ∧
    (req.body.weekName.truthy = true → env.isValid (.str req.paramsId) = true →
      (updateWeek env req w).1 = .error (.storeError w.log.length)) ∧
    (∀ id, req.body.id.toStringJs = .ok id → env.isValid (.str id) = true →
      (changeStretchesStatus env req w).1 = .error (.storeError w.log.length)) ∧
    (getAllStretches env req w).1 = .ok { status := 500, body := .message "Server Error" } ∧
    (req.body.stretchesName.truthy = true →
      (addStretches env req w).1 = .ok { status := 500, body := .message "Server Error" }) ∧
    (env.isValid (.str req.paramsId) = true →
      (deleteStretches env req w).1
        = .ok { status := 500, body := .message "Failed to delete Stretch" }) ∧
    (req.body.weekName.truthy = true → env.isValid req.body.challenges_id = true →
      (addWeek env req w).1 = .ok { status := 500, body := .message "Server Error" }) ∧
    (getAllWeeks env req w).1 = .ok { status := 500, body := .message "Server Error" } ∧
    (env.isValid (.str req.paramsId) = true →
      (getWeeksByChallengesId env req w).1
        = .ok { status := 500, body := .message "Server Error" }) ∧
    (env.isValid (.str req.paramsId) = true →
      (deleteWeek env req w).1
        = .ok { status := 500, body := .message "Failed to delete Week" }) := by
  refine ⟨fun hn hv => ?_, fun hn hv => ?_, fun id hid hv => ?_, ?_, fun hn => ?_,
    fun hv => ?_, fun hn hv => ?_, ?_, fun hv => ?_, fun hv => ?_⟩
  · simp [updateStretches, hs, hn, hv, bind, Eff.bind, pure, stretchesFindByIdAndUpdate,
      storeCall]
  · simp [updateWeek, hs, hn, hv, bind, Eff.bind, pure, weekFindByIdAndUpdate, storeCall]
  · simp [changeStretchesStatus, hs, hid, hv, bind, Eff.bind, pure,
      stretchesFindOneAndUpdate, storeCall]
  · simp [getAllStretches, hs, tryCatch, tryCatchThe, MonadExcept.tryCatch, Eff.tryCatch,
      bind, Eff.bind, pure, stretchesFind, storeCall]
  · simp [addStretches, hs, hn, tryCatch, tryCatchThe, MonadExcept.tryCatch, Eff.tryCatch,
      bind, Eff.bind, pure, stretchesSave, storeCall]
  · simp [deleteStretches, deleteStretchesIn, hs, hv, tryCatch, tryCatchThe,
      MonadExcept.tryCatch, Eff.tryCatch, bind, Eff.bind, pure, stretchesFindOne, storeCall]
  · simp [addWeek, hs, hn, hv, tryCatch, tryCatchThe, MonadExcept.tryCatch, Eff.tryCatch,
      bind, Eff.bind, pure, weekSave, storeCall]
  · simp [getAllWeeks, hs, tryCatch, tryCatchThe, MonadExcept.tryCatch, Eff.tryCatch,
      bind, Eff.bind, pure, weekFind, storeCall]
  · simp [getWeeksByChallengesId, hs, hv, tryCatch, tryCatchThe, MonadExcept.tryCatch,
      Eff.tryCatch, bind, Eff.bind, pure, weekFindByChallenge, storeCall]
  · simp [deleteWeek, hs, hv, tryCatch, tryCatchThe, MonadExcept.tryCatch, Eff.tryCatch,
      bind, Eff.bind, pure, weekDeleteOne, storeCall]

/-- Witness for C4: a store whose calls throw, and requests with well-formed
identifiers; the three handlers without `try` send no response. -/
theorem store_error_handling_witness :
    ((updateStretches failingStoreEnv
        { paramsId := "65f000000000000000000000", body := { stretchesName := .str "Cobra" } }
        {}).1 = .error (.storeError 0)) ∧
    ((updateWeek failingStoreEnv
        { paramsId := "65f000000000000000000000", body := { weekName := .str "W1" } }
        {}).1 = .error (.storeError 0)) ∧
    ((changeStretchesStatus failingStoreEnv
        { body := { id := .str "65f000000000000000000000", status := .num 1 } }
        {}).1 = .error (.storeError 0)) :=
  ⟨(store_error_handling failingStoreEnv
      { paramsId := "65f000000000000000000000", body := { stretchesName := .str "Cobra" } }
      {} (by decide)).1 (by decide) (by decide),
   (store_error_handling failingStoreEnv
      { paramsId := "65f000000000000000000000", body := { weekName := .str "W1" } }
      {} (by decide)).2.1 (by decide) (by decide),
   (store_error_handling failingStoreEnv
      { body := { id := .str "65f000000000000000000000", status := .num 1 } }
      {} (by decide)).2.2.1 "65f000000000000000000000" (by decide) (by decide)⟩

/-! ### Deletion -/

theorem cleanupImage_unbound (env : Env) (image : String) (w : World) :
    cleanupImage stretchesModule env image w = (.ok (), w) := by
  simp [cleanupImage, stretchesModule, tryCatch, tryCatchThe, MonadExcept.tryCatch,
    Eff.tryCatch, bind, Eff.bind, pure, throw, throwThe, MonadExcept.throw, Eff.throw]

theorem cleanupImage_guard (scope : ModuleScope) (env : Env) (image : String) (w : World)
    (hg : (pathNormalize (pathJoin [env.dirname, ['.', '.']])).isPrefixOf
      (pathNormalize (pathJoin [env.dirname, ['.', '.'], image.toList])) = false) :
    cleanupImage scope env image w = (.ok (), w) := by
  unfold cleanupImage
  generalize pathJoin [env.dirname, ['.', '.'], image.toList] = full at hg
  generalize pathJoin [env.dirname, ['.', '.']] = root at hg
  cases hp : scope.path <;>
    simp [hp, hg, tryCatch, tryCatchThe, MonadExcept.tryCatch,
      Eff.tryCatch, bind, Eff.bind, pure, throw, throwThe, MonadExcept.throw, Eff.throw]

theorem unlinkIfPresent_store (scope : ModuleScope) (env : Env) (file : List Char) (w : World) :
    { (unlinkIfPresent scope env file w).2 with files := w.files, log := w.log } = w := by
  unfold unlinkIfPresent
  cases hfs : scope.fs <;> cases hff : env.fsFails file <;> by_cases hm : file ∈ w.files <;>
    simp [hfs, hff, hm, tryCatch, tryCatchThe, MonadExcept.tryCatch,
      Eff.tryCatch, bind, Eff.bind, pure, throw, throwThe, MonadExcept.throw, Eff.throw,
      fsAccess, fsUnlink, logCall, getWorld, modifyWorld, JsError.code] <;>
    split <;> simp [Eff.throw]

theorem cleanupImage_contained (scope : ModuleScope) (env : Env) (image : String) (w : World) :
    (cleanupImage scope env image w).1 = .ok () ∧
    { (cleanupImage scope env image w).2 with files := w.files, log := w.log } = w := by
  unfold cleanupImage
  generalize pathJoin [env.dirname, ['.', '.'], image.toList] = full
  generalize pathJoin [env.dirname, ['.', '.']] = root
  have h := unlinkIfPresent_store scope env full w
  cases hp : scope.path <;>
    cases hg : (pathNormalize root).isPrefixOf (pathNormalize full) <;>
    simp [hp, hg, tryCatch, tryCatchThe, MonadExcept.tryCatch,
      Eff.tryCatch, bind, Eff.bind, pure, throw, throwThe, MonadExcept.throw, Eff.throw]
  cases hu : unlinkIfPresent scope env full w with
  | mk r w1 =>
    rw [hu] at h
    cases r <;> simp <;> exact h

theorem any_of_find_some {α : Type} (p : α → Bool) (l : List α) (d : α)
    (h : l.find? p = some d) : l.any p = true := by
  rw [List.any_eq_true]
  exact ⟨d, List.mem_of_find?_eq_some h, List.find?_some h⟩

theorem deleteStretchesIn_existing (scope : ModuleScope) (env : Env) (req : Req) (w : World)
    (doc : Stretch)
    (hv : env.isValid (.str req.paramsId) = true)
    (hfind : w.stretches.find? (fun d => d._id == req.paramsId) = some doc)
    (hs1 : env.storeFails w.log.length = false)
    (hs2 : env.storeFails (w.log.length + 1) = false) :
    deleteStretchesIn scope env req w
      = (.ok { status := 200, body := .deletedStretches "Stretch deleted successfully" 1 },
         if doc.image = "" then
           { w with
             stretches := eraseFirst (fun d => d._id == req.paramsId) w.stretches
             log := w.log ++
               [Call.stretchesFindOne req.paramsId, Call.stretchesDeleteOne req.paramsId] }
         else
           (cleanupImage scope env doc.image
             { w with
               stretches := eraseFirst (fun d => d._id == req.paramsId) w.stretches
               log := w.log ++
                 [Call.stretchesFindOne req.paramsId,
                  Call.stretchesDeleteOne req.paramsId] }).2) := by
  have hany := any_of_find_some _ _ _ hfind
  simp only [List.any_eq_true, beq_iff_eq] at hany
  have hc := (cleanupImage_contained scope env doc.image
    { w with
      stretches := eraseFirst (fun d => d._id == req.paramsId) w.stretches
      log := w.log ++
        [Call.stretchesFindOne req.paramsId, Call.stretchesDeleteOne req.paramsId] }).1
  cases hr : cleanupImage scope env doc.image
    { w with
      stretches := eraseFirst (fun d => d._id == req.paramsId) w.stretches
      log := w.log ++
        [Call.stretchesFindOne req.paramsId, Call.stretchesDeleteOne req.paramsId] } with
  | mk r w1 =>
    rw [hr] at hc
    simp only at hc
    subst hc
    by_cases himg : doc.image = ""
    · simp [deleteStretchesIn, hv, hfind, hs1, hs2, hany, himg, tryCatch, tryCatchThe,
        MonadExcept.tryCatch, Eff.tryCatch, bind, Eff.bind, pure, stretchesFindOne,
        stretchesDeleteOne, storeCall, getWorld, modifyWorld]
    · simp [deleteStretchesIn, hv, hfind, hs1, hs2, hany, himg, tryCatch, tryCatchThe,
        MonadExcept.tryCatch, Eff.tryCatch, bind, Eff.bind, pure, stretchesFindOne,
        stretchesDeleteOne, storeCall, getWorld, modifyWorld, hr]

theorem deleteStretches_existing (env : Env) (req : Req) (w : World) (doc : Stretch)
    (hv : env.isValid (.str req.paramsId) = true)
    (hfind : w.stretches.find? (fun d => d._id == req.paramsId) = some doc)
    (hs1 : env.storeFails w.log.length = false)
    (hs2 : env.storeFails (w.log.length + 1) = false) :
    deleteStretches env req w
      = (.ok { status := 200, body := .deletedStretches "Stretch deleted successfully" 1 },
         { w with
           stretches := eraseFirst (fun d => d._id == req.paramsId) w.stretches
           log := w.log ++
             [Call.stretchesFindOne req.paramsId, Call.stretchesDeleteOne req.paramsId] }) := by
  unfold deleteStretches
  rw [deleteStretchesIn_existing stretchesModule env req w doc hv hfind hs1 hs2,
    cleanupImage_unbound]
  simp

theorem find_eraseFirst_none {α : Type} (f : α → String) (id : String) (l : List α)
    (hnd : (l.map f).Nodup) :
    (eraseFirst (fun d => f d == id) l).find? (fun d => f d == id) = none := by
  induction l with
  | nil => rfl
  | cons x xs ih =>
    rw [List.map_cons, List.nodup_cons] at hnd
    by_cases hx : f x = id
    · simp only [eraseFirst, hx, beq_self_eq_true, if_true]
      rw [List.find?_eq_none]
      intro y hy hyid
      apply hnd.1
      rw [hx]
      have : f y = id := by simpa using hyid
      rw [← this]
      exact List.mem_map_of_mem f hy
    · have hx2 : (f x == id) = false := by simpa using hx
      simp only [eraseFirst, hx2, Bool.false_eq_true, if_false, List.find?_cons]
      exact ih hnd.2

theorem deleteStretches_absent (env : Env) (req : Req) (w : World)
    (hv : env.isValid (.str req.paramsId) = true)
    (hfind : w.stretches.find? (fun d => d._id == req.paramsId) = none)
    (hs1 : env.storeFails w.log.length = false) :
    (deleteStretches env req w).1
      = .ok { status := 500, body := .message "No document found to delete." } := by
  simp [deleteStretches, deleteStretchesIn, hv, hfind, hs1, tryCatch, tryCatchThe,
    MonadExcept.tryCatch, Eff.tryCatch, bind, Eff.bind, pure, stretchesFindOne, storeCall,
    getWorld]

theorem deleteWeek_existing (env : Env) (req : Req) (w : World) (doc : Week)
    (hv : env.isValid (.str req.paramsId) = true)
    (hfind : w.weeks.find? (fun d => d._id == req.paramsId) = some doc)
    (hs1 : env.storeFails w.log.length = false) :
    deleteWeek env req w
      = (.ok { status := 200, body := .deletedWeek "Week deleted successfully" 1 },
         { w with
           weeks := eraseFirst (fun d => d._id == req.paramsId) w.weeks
           log := w.log ++ [Call.weekDeleteOne req.paramsId] }) := by
  have hany := any_of_find_some _ _ _ hfind
  simp only [List.any_eq_true, beq_iff_eq] at hany
  simp [deleteWeek, hv, hs1, hany, tryCatch, tryCatchThe,
    MonadExcept.tryCatch, Eff.tryCatch, bind, Eff.bind, pure, weekDeleteOne, storeCall,
    getWorld, modifyWorld]

theorem deleteWeek_absent (env : Env) (req : Req) (w : World)
    (hv : env.isValid (.str req.paramsId) = true)
    (hfind : w.weeks.find? (fun d => d._id == req.paramsId) = none)
    (hs1 : env.storeFails w.log.length = false) :
    (deleteWeek env req w).1
      = .ok { status := 404, body := .message "Week not found" } := by
  have hany : ¬ ∃ x ∈ w.weeks, x._id = req.paramsId := by
    rw [List.find?_eq_none] at hfind
    rintro ⟨x, hx, hxid⟩
    exact hfind x hx (by simp [hxid])
  simp [deleteWeek, hv, hs1, hany, tryCatch, tryCatchThe,
    MonadExcept.tryCatch, Eff.tryCatch, bind, Eff.bind, pure, weekDeleteOne, storeCall,
    getWorld, modifyWorld]

/-- C5: deleting an existing stretch through `deleteStretches` answers with
the success message and deletion count 1, removes the record, and leaves the
files alone: the only calls made are the two store calls, so no file is
unlinked, whatever the stored image path is and in particular when it
resolves outside the root directory. More generally, under any module scope,
any file system state, any file system failure and any `__dirname`, the
response and the resulting stretches collection are the same; and whenever
the resolved path does not start with the root, no file is removed. -/
theorem deleteStretches_cleanup_isolated (env : Env) (req : Req) (w : World) (doc : Stretch)
    (hv : env.isValid (.str req.paramsId) = true)
    (hfind : w.stretches.find? (fun d => d._id == req.paramsId) = some doc)
    (hs1 : env.storeFails w.log.length = false)
    (hs2 : env.storeFails (w.log.length + 1) = false) :
    deleteStretches env req w
      = (.ok { status := 200, body := .deletedStretches "Stretch deleted successfully" 1 },
         { w with
           stretches := eraseFirst (fun d => d._id == req.paramsId) w.stretches
           log := w.log ++
             [Call.stretchesFindOne req.paramsId, Call.stretchesDeleteOne req.paramsId] }) ∧
    (∀ (scope : ModuleScope) (fsFails : List Char → Option String) (dirname : List Char)
        (files : List (List Char)),
      (deleteStretchesIn scope { env with fsFails := fsFails, dirname := dirname } req
          { w with files := files }).1
        = .ok { status := 200, body := .deletedStretches "Stretch deleted successfully" 1 } ∧
      (deleteStretchesIn scope { env with fsFails := fsFails, dirname := dirname } req
          { w with files := files }).2.stretches
        = eraseFirst (fun d => d._id == req.paramsId) w.stretches ∧
      ((pathNormalize (pathJoin [dirname, ['.', '.']])).isPrefixOf
          (pathNormalize (pathJoin [dirname, ['.', '.'], doc.image.toList])) = false →
        (deleteStretchesIn scope { env with fsFails := fsFails, dirname := dirname } req
          { w with files := files }).2.files = files)) := by
  refine ⟨deleteStretches_existing env req w doc hv hfind hs1 hs2,
    fun scope fsFails dirname files => ?_⟩
  have h := deleteStretchesIn_existing scope { env with fsFails := fsFails, dirname := dirname }
    req { w with files := files } doc hv hfind hs1 hs2
  have hc := (cleanupImage_contained scope { env with fsFails := fsFails, dirname := dirname }
    doc.image
    { w with
      files := files
      stretches := eraseFirst (fun d => d._id == req.paramsId) w.stretches
      log := w.log ++
        [Call.stretchesFindOne req.paramsId, Call.stretchesDeleteOne req.paramsId] }).2
  refine ⟨by rw [h], ?_, fun hg => ?_⟩
  · rw [h]
    by_cases himg : doc.image = ""
    · simp [himg]
    · simp only [himg, if_false]
      have := congrArg World.stretches hc
      simpa using this
  · rw [h]
    by_cases himg : doc.image = ""
    · simp [himg]
    · simp only [himg, if_false]
      rw [cleanupImage_guard scope _ doc.image _ hg]

/-- Witness for C5: a stretch whose image is `../../etc/passwd`, which
resolves to `/etc/passwd` outside the root `/app`; the file stays. -/
theorem deleteStretches_cleanup_isolated_witness :
    pathJoin ["/app/controllers".toList, "..".toList, "../../etc/passwd".toList]
      = "/etc/passwd".toList ∧
    deleteStretches sampleEnv { paramsId := "65f000000000000000000000" }
        { stretches := [{ _id := "65f000000000000000000000", stretches := .str "Cobra",
                          description := .undefined, isActive := .num 1,
                          image := "../../etc/passwd", isPro := .undefined, createdAt := 0 }]
          files := ["/etc/passwd".toList] }
      = (.ok { status := 200, body := .deletedStretches "Stretch deleted successfully" 1 },
         { files := ["/etc/passwd".toList]
           log := [.stretchesFindOne "65f000000000000000000000",
                   .stretchesDeleteOne "65f000000000000000000000"] }) :=
  ⟨by decide,
   (deleteStretches_cleanup_isolated sampleEnv { paramsId := "65f000000000000000000000" }
      { stretches := [{ _id := "65f000000000000000000000", stretches := .str "Cobra",
                        description := .undefined, isActive := .num 1,
                        image := "../../etc/passwd", isPro := .undefined, createdAt := 0 }]
        files := ["/etc/passwd".toList] }
      { _id := "65f000000000000000000000", stretches := .str "Cobra",
        description := .undefined, isActive := .num 1,
        image := "../../etc/passwd", isPro := .undefined, createdAt := 0 }
      (by decide) (by decide) (by decide) (by decide)).1⟩

/-- In a module where `path` and `fs` were bound to the Node modules, the
guard of `deleteStretches` stops a path that climbs out of the root. -/
theorem bound_scope_guard_rejects_traversal :
    (deleteStretchesIn { path := true, fs := true } sampleEnv
        { paramsId := "65f000000000000000000000" }
        { stretches := [{ _id := "65f000000000000000000000", stretches := .str "Cobra",
                          description := .undefined, isActive := .num 1,
                          image := "../../etc/passwd", isPro := .undefined, createdAt := 0 }]
          files := ["/etc/passwd".toList] }).2.files
      = ["/etc/passwd".toList] := by
  decide

/-- In a module where `path` and `fs` were bound to the Node modules, the
guard of `deleteStretches`, a test on the characters of the two paths, lets a
sibling directory whose name starts with the name of the root pass: the file
`/app-old/secret.txt` outside the root `/app` is unlinked. -/
theorem bound_scope_guard_admits_sibling :
    (deleteStretchesIn { path := true, fs := true } sampleEnv
        { paramsId := "65f000000000000000000000" }
        { stretches := [{ _id := "65f000000000000000000000", stretches := .str "Cobra",
                          description := .undefined, isActive := .num 1,
                          image := "../app-old/secret.txt", isPro := .undefined,
                          createdAt := 0 }]
          files := ["/app-old/secret.txt".toList] }).2.files
      = [] := by
  decide

/-- C2 (the code departs from it): for an existing record with a well-formed
identifier, unique in its collection, and a store that does not throw, the
first `deleteWeek` answers success with count 1 and the second answers 404;
the first `deleteStretches` answers success with count 1 but the second
answers 500 "No document found to delete.", a server-error status. -/
theorem delete_twice (env : Env) (req : Req) (w : World)
    (hv : env.isValid (.str req.paramsId) = true)
    (hok : ∀ n, env.storeFails n = false) :
    (∀ doc, w.stretches.find? (fun d => d._id == req.paramsId) = some doc →
      (w.stretches.map Stretch._id).Nodup →
      (deleteStretches env req w).1
        = .ok { status := 200, body := .deletedStretches "Stretch deleted successfully" 1 } ∧
      (deleteStretches env req (deleteStretches env req w).2).1
        = .ok { status := 500, body := .message "No document found to delete." }) ∧
    (∀ doc, w.weeks.find? (fun d => d._id == req.paramsId) = some doc →
      (w.weeks.map Week._id).Nodup →
      (deleteWeek env req w).1
        = .ok { status := 200, body := .deletedWeek "Week deleted successfully" 1 } ∧
      (deleteWeek env req (deleteWeek env req w).2).1
        = .ok { status := 404, body := .message "Week not found" }) := by
  refine ⟨fun doc hfind hnd => ?_, fun doc hfind hnd => ?_⟩
  · rw [deleteStretches_existing env req w doc hv hfind (hok _) (hok _)]
    refine ⟨rfl, ?_⟩
    exact deleteStretches_absent env req _ hv
      (find_eraseFirst_none Stretch._id req.paramsId w.stretches hnd) (hok _)
  · rw [deleteWeek_existing env req w doc hv hfind (hok _)]
    refine ⟨rfl, ?_⟩
    exact deleteWeek_absent env req _ hv
      (find_eraseFirst_none Week._id req.paramsId w.weeks hnd) (hok _)

/-- Witness for C2: a store with one stretch; the second `deleteStretches`
on its identifier answers 500. -/
theorem delete_twice_witness :
    (deleteStretches sampleEnv { paramsId := "65f000000000000000000000" }
        { stretches := [{ _id := "65f000000000000000000000", stretches := .str "Cobra",
                          description := .undefined, isActive := .num 1, image := "",
                          isPro := .undefined, createdAt := 0 }] }).1
      = .ok { status := 200, body := .deletedStretches "Stretch deleted successfully" 1 } ∧
    (deleteStretches sampleEnv { paramsId := "65f000000000000000000000" }
        (deleteStretches sampleEnv { paramsId := "65f000000000000000000000" }
          { stretches := [{ _id := "65f000000000000000000000", stretches := .str "Cobra",
                            description := .undefined, isActive := .num 1, image := "",
                            isPro := .undefined, createdAt := 0 }] }).2).1
      = .ok { status := 500, body := .message "No document found to delete." } :=
  (delete_twice sampleEnv { paramsId := "65f000000000000000000000" }
      { stretches := [{ _id := "65f000000000000000000000", stretches := .str "Cobra",
                        description := .undefined, isActive := .num 1, image := "",
                        isPro := .undefined, createdAt := 0 }] }
      (by decide) (fun _ => rfl)).1
    { _id := "65f000000000000000000000", stretches := .str "Cobra",
      description := .undefined, isActive := .num 1, image := "",
      isPro := .undefined, createdAt := 0 }
    (by decide) (by decide)

/-! ### Creation and update of stretches -/

theorem setIfDefined_truthy (v old : JVal) (h : v.truthy = true) : setIfDefined v old = v := by
  cases v <;> simp_all [setIfDefined, JVal.truthy]

theorem setIfDefined_default (v old : JVal) :
    setIfDefined (if v.truthy = true then v else .num 1) old
      = if v.truthy = true then v else .num 1 := by
  cases h : v.truthy
  · simp [setIfDefined]
  · simp [setIfDefined_truthy v old h]

theorem addStretches_world (env : Env) (req : Req) (w : World)
    (hn : req.body.stretchesName.truthy = true)
    (hs1 : env.storeFails w.log.length = false) :
    (addStretches env req w).2
      = { w with
          stretches := w.stretches ++
            [{ _id := env.newId w.clock, stretches := req.body.stretchesName,
               description := req.body.description,
               isActive := if req.body.isActive.truthy = true then req.body.isActive else .num 1,
               image := (match req.file with
                 | some filePath => filePath
                 | none => ""),
               isPro := .undefined, createdAt := w.clock }]
          clock := w.clock + 1
          log := w.log ++ [Call.stretchesSave] } := by
  simp [addStretches, hn, hs1, tryCatch, tryCatchThe, MonadExcept.tryCatch, Eff.tryCatch,
    bind, Eff.bind, pure, stretchesSave, storeCall, modifyWorld]

theorem getAllStretches_nonempty (env : Env) (req : Req) (w : World)
    (hs : env.storeFails w.log.length = false) (hne : w.stretches ≠ []) :
    (getAllStretches env req w).1
      = .ok { status := 200,
              body := .stretchess none
                (w.stretches.insertionSort (fun a b => b.createdAt ≤ a.createdAt)) } := by
  have h2 := insertionSort_ne_nil (fun (a b : Stretch) => b.createdAt ≤ a.createdAt) _ hne
  simp [getAllStretches, hs, tryCatch, tryCatchThe, MonadExcept.tryCatch, Eff.tryCatch,
    bind, Eff.bind, pure, stretchesFind, storeCall, getWorld, h2, hne]

theorem addWeek_world (env : Env) (req : Req) (w : World)
    (hn : req.body.weekName.truthy = true)
    (hv : env.isValid req.body.challenges_id = true)
    (hs1 : env.storeFails w.log.length = false) :
    (addWeek env req w).2
      = { w with
          weeks := w.weeks ++
            [{ _id := env.newId w.clock, challenges_Id := req.body.challenges_id,
               weekName := req.body.weekName, createdAt := w.clock }]
          clock := w.clock + 1
          log := w.log ++ [Call.weekSave] } := by
  simp [addWeek, hn, hv, hs1, tryCatch, tryCatchThe, MonadExcept.tryCatch, Eff.tryCatch,
    bind, Eff.bind, pure, weekSave, storeCall, modifyWorld]

theorem getAllWeeks_nonempty (env : Env) (req : Req) (w : World)
    (hs : env.storeFails w.log.length = false) (hne : w.weeks ≠ []) :
    (getAllWeeks env req w).1 = .ok { status := 200, body := .weeks none w.weeks } := by
  simp [getAllWeeks, hs, tryCatch, tryCatchThe, MonadExcept.tryCatch, Eff.tryCatch,
    bind, Eff.bind, pure, weekFind, storeCall, getWorld, hne]

/-- C6 (the code departs from it): after a create that passes validation, the
list handler returns the former records together with one new record.
For `addWeek` the new week carries the supplied `challenges_id` and
`weekName`. For `addStretches` the new stretch carries the supplied name and
description, but its `isActive` is the supplied value only when that value is
truthy: a supplied `0`, `false` or empty string is listed as `1`. -/
theorem create_then_list (env : Env) (req listReq : Req) (w : World)
    (hs1 : env.storeFails w.log.length = false)
    (hs2 : env.storeFails (w.log.length + 1) = false) :
    (req.body.stretchesName.truthy = true →
      (getAllStretches env listReq (addStretches env req w).2).1
        = .ok { status := 200,
                body := .stretchess none
                  ((w.stretches ++
                    [({ _id := env.newId w.clock, stretches := req.body.stretchesName,
                        description := req.body.description,
                        isActive :=
                          if req.body.isActive.truthy = true then req.body.isActive
                          else .num 1,
                        image := (match req.file with
                          | some filePath => filePath
                          | none => ""),
                        isPro := .undefined, createdAt := w.clock } : Stretch)]).insertionSort
                    (fun a b => b.createdAt ≤ a.createdAt)) }) ∧
    (req.body.weekName.truthy = true → env.isValid req.body.challenges_id = true →
      (getAllWeeks env listReq (addWeek env req w).2).1
        = .ok { status := 200,
                body := .weeks none
                  (w.weeks ++
                    [({ _id := env.newId w.clock, challenges_Id := req.body.challenges_id,
                        weekName := req.body.weekName, createdAt := w.clock } : Week)]) }) := by
  refine ⟨fun hn => ?_, fun hn hv => ?_⟩
  · rw [addStretches_world env req w hn hs1]
    rw [getAllStretches_nonempty env listReq _ (by simpa using hs2) (by simp)]
  · rw [addWeek_world env req w hn hv hs1]
    rw [getAllWeeks_nonempty env listReq _ (by simpa using hs2) (by simp)]

/-- Witness for C6: `addStretches` with `isActive: 0` on an empty store, then
`getAllStretches`: the listed record has `isActive` 1. -/
theorem create_then_list_witness :
    (getAllStretches sampleEnv {}
        (addStretches sampleEnv
          { body := { stretchesName := .str "Cobra", description := .str "Back bend",
                      isActive := .num 0 } } {}).2).1
      = .ok { status := 200,
              body := .stretchess none
                [{ _id := "65f000000000000000000000", stretches := .str "Cobra",
                   description := .str "Back bend", isActive := .num 1, image := "",
                   isPro := .undefined, createdAt := 0 }] } :=
  (create_then_list sampleEnv
      { body := { stretchesName := .str "Cobra", description := .str "Back bend",
                  isActive := .num 0 } } {} {} (by decide) (by decide)).1 (by decide)

/-- C9 (the code departs from it): for a well-formed identifier and a
non-empty name, `updateStretches` answers 404 when no record matches, and
otherwise answers with the record after the update, which carries the
supplied name and description; its `isActive` is the supplied value only when
that value is truthy: a supplied `0` or `false` is stored as `1`. -/
theorem updateStretches_result (env : Env) (req : Req) (w : World)
    (hn : req.body.stretchesName.truthy = true)
    (hv : env.isValid (.str req.paramsId) = true)
    (hs : env.storeFails w.log.length = false) :
    (∀ doc, w.stretches.find? (fun d => d._id == req.paramsId) = some doc →
      (updateStretches env req w).1
        = .ok { status := 200,
                body := .stretchDoc
                  { doc with
                    stretches := req.body.stretchesName
                    description := setIfDefined req.body.description doc.description
                    isActive :=
                      if req.body.isActive.truthy = true then req.body.isActive
                      else .num 1 } }) ∧
    (w.stretches.find? (fun d => d._id == req.paramsId) = none →
      (updateStretches env req w).1
        = .ok { status := 404, body := .message "Stretch not found" }) := by
  refine ⟨fun doc hfind => ?_, fun hfind => ?_⟩
  · simp [updateStretches, hn, hv, hs, hfind, bind, Eff.bind, pure,
      stretchesFindByIdAndUpdate, storeCall, getWorld, modifyWorld, setIfDefined_default,
      setIfDefined_truthy _ _ hn]
  · simp [updateStretches, hn, hv, hs, hfind, bind, Eff.bind, pure,
      stretchesFindByIdAndUpdate, storeCall, getWorld, modifyWorld]

/-- Witness for C9: an active stretch updated with `isActive: 0` comes back
with `isActive` 1. -/
theorem updateStretches_result_witness :
    (updateStretches sampleEnv
        { paramsId := "65f000000000000000000000"
          body := { stretchesName := .str "Cobra", description := .str "Back bend",
                    isActive := .num 0 } }
        { stretches := [{ _id := "65f000000000000000000000", stretches := .str "Kobra",
                          description := .undefined, isActive := .num 1, image := "",
                          isPro := .undefined, createdAt := 0 }] }).1
      = .ok { status := 200,
              body := .stretchDoc
                { _id := "65f000000000000000000000", stretches := .str "Cobra",
                  description := .str "Back bend", isActive := .num 1, image := "",
                  isPro := .undefined, createdAt := 0 } } :=
  (updateStretches_result sampleEnv
      { paramsId := "65f000000000000000000000"
        body := { stretchesName := .str "Cobra", description := .str "Back bend",
                  isActive := .num 0 } }
      { stretches := [{ _id := "65f000000000000000000000", stretches := .str "Kobra",
                        description := .undefined, isActive := .num 1, image := "",
                        isPro := .undefined, createdAt := 0 }] }
      (by decide) (by decide) (by decide)).1
    { _id := "65f000000000000000000000", stretches := .str "Kobra",
      description := .undefined, isActive := .num 1, image := "",
      isPro := .undefined, createdAt := 0 }
    (by decide)

/-! ### The custom plan list with `updatedItem` bound -/

theorem startCallbacks_run (env : Env) (hok : ∀ n, env.storeFails n = false)
    (plans : List CustomPlan) (w : World) :
    startCallbacks env plans w
      = (.ok (plans.map fun p =>
            (p, .ok (w.customPlanExercises.filter (fun e => e.custom_plan_id == p._id)))),
         { w with log := w.log ++ plans.map (fun p => Call.customPlanExerciseFind p._id) }) := by
  induction plans generalizing w with
  | nil => simp [startCallbacks, pure]
  | cons item rest ih =>
    simp [startCallbacks, bind, Eff.bind, pure, customPlanExerciseFind, storeCall, hok, ih]

theorem planEntry_bound (p : CustomPlan) (found : List CustomPlanExercise) :
    planEntry (some p) (.ok found) = .ok { plan := p, totalexercise := found.length } := rfl

theorem promiseAll_entries (exercises : List CustomPlanExercise) (plans : List CustomPlan) :
    promiseAll
        (plans.map fun p =>
          planEntry (some p) (.ok (exercises.filter (fun e => e.custom_plan_id == p._id))))
      = .ok (plans.map fun p =>
          { plan := p,
            totalexercise := (exercises.filter (fun e => e.custom_plan_id == p._id)).length }) := by
  induction plans with
  | nil => rfl
  | cons p rest ih =>
    rw [List.map_cons, planEntry_bound, List.map_cons]
    simp only [promiseAll]
    rw [ih]

/-- Were `updatedItem` bound to the plan `item` of the callback, the handler
would answer 200 with success 1 and one entry per plan of the user, newest
first, each with the number of exercises that refer to it. -/
theorem getCustomPlanIn_bound_item (env : Env) (req : Req) (w : World)
    (hok : ∀ n, env.storeFails n = false)
    (h : missingRequired req.body = false)
    (hc : env.checkUserLogin req.body.user_id req.body.session req.body.device_id = .ok true)
    (hne : ∃ p ∈ w.customPlans, p.user_id = req.body.user_id) :
    (getCustomPlanIn some env req w).1
      = .ok { status := 200,
              body := .data 1
                (((w.customPlans.filter (fun p => p.user_id == req.body.user_id)).insertionSort
                    (fun a b => b.createdAt ≤ a.createdAt)).map fun p =>
                  { plan := p,
                    totalexercise :=
                      (w.customPlanExercises.filter
                        (fun e => e.custom_plan_id == p._id)).length })
                "" } := by
  rw [missingRequired_iff] at h
  have hne2 : ¬ ∀ a ∈ w.customPlans, ¬a.user_id = req.body.user_id := by
    push_neg; exact hne
  simp only [getCustomPlanIn]
  simp [h, hc, hok, tryCatch, tryCatchThe, MonadExcept.tryCatch, Eff.tryCatch, bind,
    Eff.bind, pure, checkUserLogin, logCall, customPlanFind, storeCall, getWorld, hne2,
    startCallbacks_run env hok]
  simp only [Function.comp_def]
  rw [promiseAll_entries]
  simp [Eff.bind]

/-! ### Identifiers sent as numbers -/

/-- The conversion prints a Number from `1e21` on in exponent form, and
between `2 ^ 53` and `1e21` as its shortest digits followed by zeros. -/
theorem intToStringJs_samples :
    intToStringJs 123456789012345685803008 = "1.2345678901234569e+23" ∧
    intToStringJs 18446744073709551616 = "18446744073709552000" ∧
    intToStringJs (-42) = "-42" := by
  decide

/-- A numeric `id` of 24 digits reaches the identifier check of
`changeStretchesStatus` in exponent form, so the handler answers 500
"Invalid ObjectId" without a store call. -/
theorem changeStretchesStatus_numeric_id :
    changeStretchesStatus sampleEnv
        { body := { id := .num 123456789012345685803008, status := .num 1 } } {}
      = (.ok { status := 500, body := .message "Invalid ObjectId" }, {}) := by
  decide

end Yoga
